import Mathlib

/-!
Shallow embedding of the payment/enrollment lifecycle of the
Worldpedia Education backend (`src/services/payment.service.ts` together
with the Payment model and the validation helpers it imports).

Stateful Mongo/mongoose code is embedded as explicit state passing over a
`DB` record holding the Payment and Enrollment collections.  Network
collaborators (the Midtrans gateway) are injected as `Except`-valued
arguments; clock reads (`Date.now()`) and the uuid generator are injected
as plain arguments.  Fallibility of store writes is modelled by an oracle
(`List Bool`): each write that touches an existing document consumes the
head of the oracle (an empty oracle means every write succeeds).  A
mongoose session (`startTransaction` / `commitTransaction` /
`abortTransaction`) is modelled by the function returning the pre-call
`DB` on every error path that the source reaches after `startTransaction`:
writes performed inside a session become visible only on commit.
-/

namespace Worldpedia

/-- Internal payment statuses (`PaymentStatus` of `types/payment.types.ts`,
as used by the service, the status mapper and the Payment model). -/
inductive PaymentStatus where
  | pending
  | settlement
  | capture
  | deny
  | cancel
  | expire
  | refund
  | partialRefund
  | failed
  | completed
  deriving DecidableEq, Repr

/-- Enrollment statuses (the closed set validated by
`isValidEnrollmentStatus` in the validation helpers). -/
inductive EnrollStatus where
  | pendingPayment
  | active
  | completed
  | cancelled
  deriving DecidableEq, Repr

/-- An Enrollment document: the fields the payment service reads or
writes (`status`, `progress`) plus its identifiers. -/
structure Enrollment where
  id : String
  userId : String
  status : EnrollStatus
  progress : Nat
  deriving DecidableEq, Repr

/-- A Payment document (`models/Payment.ts`).  `transactionId` and
`orderId` carry a unique index in the schema. -/
structure Payment where
  transactionId : String
  orderId : String
  enrollmentId : String
  userId : String
  amount : Int
  status : PaymentStatus
  paymentMethod : String
  snapToken : String
  redirectUrl : String
  paidAt : Option Nat
  createdAt : Nat
  deriving DecidableEq, Repr

/-- The persistent store: the Payment and Enrollment collections. -/
structure DB where
  payments : List Payment
  enrollments : List Enrollment
  deriving DecidableEq, Repr

/-- Error taxonomy (`types/error.types.ts` as consumed by the service and
by the global error handler). -/
inductive Err where
  | validation (msg : String)
  | notFound (msg : String)
  | gateway (msg : String)
  | store (msg : String)
  deriving DecidableEq, Repr

deriving instance DecidableEq for Except

/-- JavaScript `a || b` on an optional string field: `undefined` and the
empty string are falsy. -/
def jsOr (v : Option String) (dflt : String) : String :=
  match v with
  | some s => if s = "" then dflt else s
  | none => dflt

/-- Head of the write-failure oracle; an exhausted oracle means writes
succeed. -/
def oHead : List Bool → Bool
  | [] => true
  | b :: _ => b

/-- Tail of the write-failure oracle. -/
def oTail : List Bool → List Bool
  | [] => []
  | _ :: o => o

/-- Update the first element of a list satisfying `pred` (mongoose
`save` / `findOneAndUpdate` / `findByIdAndUpdate` touch one document). -/
def updateFirst (pred : α → Bool) (f : α → α) : List α → List α
  | [] => []
  | x :: xs => if pred x then f x :: xs else x :: updateFirst pred f xs

/-- `Enrollment.findById`. -/
def findEnrollment (db : DB) (eid : String) : Option Enrollment :=
  db.enrollments.find? (fun e => e.id == eid)

/-- `payment.save()` for an already-persisted document, keyed by its
unique `transactionId`. -/
def savePayment (db : DB) (key : String) (p' : Payment) : DB :=
  { db with payments := updateFirst (fun q => q.transactionId == key) (fun _ => p') db.payments }

/-- Write the Enrollment document with id `eid` (no-op when absent, as
`findByIdAndUpdate` on a missing id). -/
def writeEnrollment (db : DB) (eid : String) (f : Enrollment → Enrollment) : DB :=
  { db with enrollments := updateFirst (fun e => e.id == eid) f db.enrollments }

/-- Modelled from the spec: `mapMidtransStatus` is defined in
`utils/payment-validator.ts`, which is absent from the sources (only the
importing module and call sites appear).  The spec's StatusMapper table (§4.1) pins
every cell: capture+accept → CAPTURE, settlement → SETTLEMENT,
pending → PENDING, deny → DENY, cancel → CANCEL, expire → EXPIRE,
refund → REFUND, partial_refund → PARTIAL_REFUND, unknown → FAILED.
The one cell the spec leaves open (capture with a non-accept fraud
status, "treated as still pending") is rendered as PENDING. -/
def mapMidtransStatus (transactionStatus : String) (fraudStatus : Option String) : PaymentStatus :=
  if transactionStatus = "capture" then
    if fraudStatus = some "accept" then .capture else .pending
  else if transactionStatus = "settlement" then .settlement
  else if transactionStatus = "pending" then .pending
  else if transactionStatus = "deny" then .deny
  else if transactionStatus = "cancel" then .cancel
  else if transactionStatus = "expire" then .expire
  else if transactionStatus = "refund" then .refund
  else if transactionStatus = "partial_refund" then .partialRefund
  else .failed

/-- Customer details of a transaction request (the fields forwarded to
the gateway). -/
structure CustomerDetails where
  firstName : String
  lastName : String
  email : String
  phone : String
  deriving DecidableEq, Repr

/-- One line item of a transaction request. -/
structure TransactionItem where
  id : String
  name : String
  price : Int
  quantity : Nat
  deriving DecidableEq, Repr

/-- The metadata object of a transaction request
(`request.metadata?.enrollmentId` is read by the service). -/
structure TransactionMetadata where
  enrollmentId : Option String
  deriving DecidableEq, Repr

/-- `TransactionRequest` (`types/payment.types.ts`). -/
structure TransactionRequest where
  userId : String
  amount : Int
  items : List TransactionItem
  customerDetails : CustomerDetails
  discount : Option Int
  metadata : Option TransactionMetadata
  deriving DecidableEq, Repr

/-- Result shape of the validation helpers. -/
structure ValidationResult where
  valid : Bool
  errors : List String
  deriving DecidableEq, Repr

/-- Modelled from the spec: `validateTransactionRequest` is defined in
`utils/payment-validator.ts`, which is absent from the sources.  The spec
(§4.2 createTransaction) describes it as payload shape validation failing
fast with a ValidationError: userId present, at least one item, customer
details present. -/
def validateTransactionRequest (req : TransactionRequest) : ValidationResult :=
  if req.userId = "" then ⟨false, ["userId is required"]⟩
  else if req.items.isEmpty then ⟨false, ["items must not be empty"]⟩
  else if req.customerDetails.email = "" then ⟨false, ["customer email is required"]⟩
  else ⟨true, []⟩

/-- Modelled from the spec: `validateAmount` is defined in
`utils/payment-validator.ts`, which is absent from the sources.  The spec
fixes the bounds (amount ≥ 1000 and ≤ 999999999); `isPaymentEligible`
in the source uses the same bounds. -/
def validateAmount (amount : Int) : ValidationResult :=
  if amount < 1000 then ⟨false, ["Minimum amount is 1000"]⟩
  else if amount > 999999999 then ⟨false, ["Maximum amount is 999999999"]⟩
  else ⟨true, []⟩

/-- `PaymentService.isPaymentEligible` (source): amount within
[1000, 999999999]. -/
def isPaymentEligible (amount : Int) : Bool :=
  amount ≥ 1000 && amount ≤ 999999999

/-- Result of `snapClient.createTransaction`. -/
structure SnapResult where
  token : String
  redirect_url : String
  deriving DecidableEq, Repr

/-- `CreatePaymentResponse` as returned by `createTransaction`. -/
structure CreatePaymentResponse where
  success : Bool
  transactionId : String
  orderId : String
  amount : Int
  snapToken : String
  redirectUrl : String
  expiresAt : Nat
  deriving DecidableEq, Repr

/-- `PaymentService.createTransaction`.  `freshId` injects `uuidv4()`,
`now` injects `Date.now()` (milliseconds), `gw` injects the gateway
call's outcome.  The whole body runs inside a mongoose session: every
error path returns the pre-call `DB`.  The unique indexes on
`transactionId` and `orderId` make `payment.save` fail on a duplicate. -/
def createTransaction (req : TransactionRequest) (freshId : String) (now : Nat)
    (gw : Except Err SnapResult) (db : DB) : DB × Except Err CreatePaymentResponse :=
  if !(validateTransactionRequest req).valid then
    (db, .error (.validation "Validation failed"))
  else if !(validateAmount req.amount).valid then
    (db, .error (.validation "Invalid amount"))
  else
    let transactionId := freshId
    let orderId := req.userId ++ "-" ++ toString now
    let expiresAt := now + 3600000
    match req.metadata.bind (fun m => m.enrollmentId) with
    | none => (db, .error (.validation "Enrollment ID is required in metadata"))
    | some enrollmentId =>
      if enrollmentId = "" then
        (db, .error (.validation "Enrollment ID is required in metadata"))
      else
        match gw with
        | .error e => (db, .error e)
        | .ok snap =>
          if db.payments.any (fun p => p.transactionId == transactionId || p.orderId == orderId) then
            (db, .error (.store "duplicate key"))
          else
            let payment : Payment :=
              { transactionId := transactionId
                orderId := orderId
                enrollmentId := enrollmentId
                userId := req.userId
                amount := req.amount
                status := .pending
                paymentMethod := "unknown"
                snapToken := snap.token
                redirectUrl := snap.redirect_url
                paidAt := none
                createdAt := now }
            ({ db with payments := db.payments ++ [payment] },
             .ok ⟨true, transactionId, orderId, req.amount, snap.token, snap.redirect_url, expiresAt⟩)

/-- The gateway's answer to `coreApi.transaction.status`. -/
structure MidtransStatusResult where
  transaction_id : String
  transaction_status : String
  fraud_status : Option String
  payment_type : Option String
  settlement_time : Option Nat
  gross_amount : Int
  deriving DecidableEq, Repr

/-- `VerifyPaymentResponse` as returned by `verifyPayment`. -/
structure VerifyPaymentResponse where
  success : Bool
  transactionId : String
  status : PaymentStatus
  paidAt : Option Nat
  paymentMethod : Option String
  amount : Int
  deriving DecidableEq, Repr

/-- The Payment lookup of `verifyPayment`
(`$or: [{transactionId}, {orderId: transactionId}]`). -/
def verifyFind (db : DB) (tid : String) : Option Payment :=
  db.payments.find? (fun p => p.transactionId == tid || p.orderId == tid)

/-- The response `verifyPayment` builds from the gateway result (returned
whether or not a local Payment was found). -/
def verifyResponse (result : MidtransStatusResult) : VerifyPaymentResponse :=
  ⟨true, result.transaction_id,
    mapMidtransStatus result.transaction_status result.fraud_status,
    result.settlement_time, result.payment_type, result.gross_amount⟩

/-- The updated Payment document written by `verifyPayment`. -/
def verifyUpdatedPayment (result : MidtransStatusResult) (now : Nat) (payment : Payment) :
    Payment :=
  let status := mapMidtransStatus result.transaction_status result.fraud_status
  { payment with
      status := status
      paymentMethod := jsOr result.payment_type payment.paymentMethod
      paidAt := if status = .settlement ∨ status = .capture then
          some (result.settlement_time.getD now)
        else payment.paidAt }

/-- The local mutation of `verifyPayment`: the Enrollment write
(`findByIdAndUpdate`, a direct store write — there is NO session here in
the source) followed by `payment.save()`.  A failing save leaves the
already-performed enrollment write in place. -/
def verifyMutate (status : PaymentStatus) (p' : Payment) (key eid : String)
    (oracle : List Bool) (db : DB) : DB × Except Err Unit :=
  if status = .settlement ∨ status = .capture then
    match findEnrollment db eid with
    | none =>
      if oHead oracle then (savePayment db key p', .ok ())
      else (db, .error (.store "payment save failed"))
    | some _ =>
      if oHead oracle then
        let db1 := writeEnrollment db eid (fun e => { e with status := .active, progress := 0 })
        if oHead (oTail oracle) then (savePayment db1 key p', .ok ())
        else (db1, .error (.store "payment save failed"))
      else (db, .error (.store "enrollment update failed"))
  else if status = .cancel ∨ status = .expire then
    match findEnrollment db eid with
    | none =>
      if oHead oracle then (savePayment db key p', .ok ())
      else (db, .error (.store "payment save failed"))
    | some _ =>
      if oHead oracle then
        let db1 := writeEnrollment db eid (fun e => { e with status := .cancelled })
        if oHead (oTail oracle) then (savePayment db1 key p', .ok ())
        else (db1, .error (.store "payment save failed"))
      else (db, .error (.store "enrollment update failed"))
  else
    if oHead oracle then (savePayment db key p', .ok ())
    else (db, .error (.store "payment save failed"))

/-- `PaymentService.verifyPayment`.  The local update runs WITHOUT a
mongoose session in the source; the Enrollment cancel on CANCEL/EXPIRE
carries no `pending_payment` guard (unlike `processWebhook`). -/
def verifyPayment (tid : String) (gw : Except Err MidtransStatusResult) (now : Nat)
    (oracle : List Bool) (db : DB) : DB × Except Err VerifyPaymentResponse :=
  match gw with
  | .error e => (db, .error e)
  | .ok result =>
    let status := mapMidtransStatus result.transaction_status result.fraud_status
    match verifyFind db tid with
    | none => (db, .ok (verifyResponse result))
    | some payment =>
      if payment.status = status then (db, .ok (verifyResponse result))
      else
        match verifyMutate status (verifyUpdatedPayment result now payment)
            payment.transactionId payment.enrollmentId oracle db with
        | (db1, .ok _) => (db1, .ok (verifyResponse result))
        | (db1, .error e) => (db1, .error e)

/-- The inbound webhook payload fields the service destructures. -/
structure WebhookPayload where
  order_id : String
  transaction_id : String
  transaction_status : String
  fraud_status : Option String
  payment_type : Option String
  deriving DecidableEq, Repr

/-- Result shape of `processWebhook`. -/
structure WebhookResult where
  success : Bool
  status : PaymentStatus
  deriving DecidableEq, Repr

/-- The Payment lookup of `processWebhook`
(`$or: [{orderId: order_id}, {transactionId: transaction_id}]`). -/
def webhookFind (db : DB) (payload : WebhookPayload) : Option Payment :=
  db.payments.find? (fun p => p.orderId == payload.order_id || p.transactionId == payload.transaction_id)

/-- The Enrollment half of the webhook transaction: runs on the session
state `sdb` (the store with the Payment already saved); on a failing
enrollment save the session aborts to the pre-call state `db`. -/
def webhookEnrollStep (newStatus : PaymentStatus) (eid : String) (o2 : Bool)
    (db sdb : DB) : DB × Except Err WebhookResult :=
  if newStatus = .settlement ∨ newStatus = .capture then
    match findEnrollment sdb eid with
    | none => (sdb, .ok ⟨true, newStatus⟩)
    | some _ =>
      if o2 then
        (writeEnrollment sdb eid (fun x => { x with status := .active, progress := 0 }),
         .ok ⟨true, newStatus⟩)
      else (db, .error (.store "enrollment save failed"))
  else if newStatus = .cancel ∨ newStatus = .expire then
    match findEnrollment sdb eid with
    | none => (sdb, .ok ⟨true, newStatus⟩)
    | some e =>
      if e.status = .pendingPayment then
        if o2 then
          (writeEnrollment sdb eid (fun x => { x with status := .cancelled }),
           .ok ⟨true, newStatus⟩)
        else (db, .error (.store "enrollment save failed"))
      else (sdb, .ok ⟨true, newStatus⟩)
  else (sdb, .ok ⟨true, newStatus⟩)

/-- The updated Payment document written by `processWebhook`. -/
def webhookUpdatedPayment (payload : WebhookPayload) (now : Nat) (payment : Payment) :
    Payment :=
  let newStatus := mapMidtransStatus payload.transaction_status payload.fraud_status
  { payment with
      status := newStatus
      paymentMethod := jsOr payload.payment_type payment.paymentMethod
      paidAt := if newStatus = .settlement ∨ newStatus = .capture then some now
        else payment.paidAt }

/-- `PaymentService.processWebhook`.  Every read and write runs inside
one mongoose session: on any mid-transaction failure the function
returns the pre-call `DB` (abort), and writes become visible only
together (commit). -/
def processWebhook (payload : WebhookPayload) (now : Nat) (oracle : List Bool)
    (db : DB) : DB × Except Err WebhookResult :=
  let newStatus := mapMidtransStatus payload.transaction_status payload.fraud_status
  match webhookFind db payload with
  | none => (db, .error (.notFound "Payment not found"))
  | some payment =>
    if payment.status = newStatus then (db, .ok ⟨true, newStatus⟩)
    else
      if oHead oracle then
        webhookEnrollStep newStatus payment.enrollmentId (oHead (oTail oracle)) db
          (savePayment db payment.transactionId (webhookUpdatedPayment payload now payment))
      else (db, .error (.store "payment save failed"))

/-- `Payment.findOneAndUpdate({ transactionId }, { status })`: set the
status of the first Payment with the given `transactionId`. -/
def setPaymentStatusByTid (db : DB) (tid : String) (st : PaymentStatus) : DB :=
  let ps := updateFirst (fun p => p.transactionId == tid) (fun p => { p with status := st }) db.payments
  { db with payments := ps }

/-- `PaymentService.cancelTransaction`: gateway cancel first, then
`Payment.findOneAndUpdate({ transactionId }, { status: CANCEL })`. -/
def cancelTransaction (tid : String) (gw : Except Err Unit) (oracle : List Bool)
    (db : DB) : DB × Except Err Unit :=
  match gw with
  | .error e => (db, .error e)
  | .ok _ =>
    match db.payments.find? (fun p => p.transactionId == tid) with
    | none => (db, .ok ())
    | some _ =>
      if oHead oracle then (setPaymentStatusByTid db tid .cancel, .ok ())
      else (db, .error (.store "update failed"))

/-- `PaymentService.expireTransaction`: gateway expire first, then
`Payment.findOneAndUpdate({ transactionId }, { status: EXPIRE })`. -/
def expireTransaction (tid : String) (gw : Except Err Unit) (oracle : List Bool)
    (db : DB) : DB × Except Err Unit :=
  match gw with
  | .error e => (db, .error e)
  | .ok _ =>
    match db.payments.find? (fun p => p.transactionId == tid) with
    | none => (db, .ok ())
    | some _ =>
      if oHead oracle then (setPaymentStatusByTid db tid .expire, .ok ())
      else (db, .error (.store "update failed"))

/-- `PaymentService.refundTransaction`: gateway refund first; the local
status is PARTIAL_REFUND when a (truthy) amount was given, REFUND
otherwise (`amount ? PARTIAL_REFUND : REFUND`, so `amount = 0` is
falsy and yields REFUND). -/
def refundTransaction (tid : String) (amount : Option Int) (reason : Option String)
    (gw : Except Err Unit) (oracle : List Bool) (db : DB) : DB × Except Err Unit :=
  match gw with
  | .error e => (db, .error e)
  | .ok _ =>
    let newStatus : PaymentStatus :=
      match amount with
      | some a => if a = 0 then .refund else .partialRefund
      | none => .refund
    match db.payments.find? (fun p => p.transactionId == tid) with
    | none => (db, .ok ())
    | some _ =>
      if oHead oracle then (setPaymentStatusByTid db tid newStatus, .ok ())
      else (db, .error (.store "update failed"))

/-! ### Helper lemmas -/

/-- Replacing (with a constant) the first `rp`-match of a list whose first
`pr`-match is `x` (where `x` matches `rp` and the replacement matches
`pr`) makes the replacement the first `pr`-match. -/
theorem find?_updateFirst_const {α : Type} (pr rp : α → Bool) (p' x : α) :
    ∀ l : List α, l.find? pr = some x → rp x = true → pr p' = true →
      (updateFirst rp (fun _ => p') l).find? pr = some p' := by
  intro l
  induction l with
  | nil => intro h _ _; simp [List.find?] at h
  | cons y ys ih =>
    intro hfind hrx hp'
    by_cases hpy : pr y = true
    · have hxy : y = x := by simpa [List.find?_cons, hpy] using hfind
      subst hxy
      simp [updateFirst, hrx, List.find?_cons, hp']
    · have hpy' : pr y = false := by simpa using hpy
      have hfind' : ys.find? pr = some x := by simpa [List.find?_cons, hpy'] using hfind
      by_cases hry : rp y = true
      · simp [updateFirst, hry, List.find?_cons, hp']
      · have hry' : rp y = false := by simpa using hry
        simp [updateFirst, hry', List.find?_cons, hpy', ih hfind' hrx hp']

/-- Updating the first `pred`-match in place (when the update preserves
the predicate) updates exactly the found element. -/
theorem find?_updateFirst_self {α : Type} (pred : α → Bool) (f : α → α) (x : α) :
    ∀ l : List α, l.find? pred = some x → pred (f x) = true →
      (updateFirst pred f l).find? pred = some (f x) := by
  intro l
  induction l with
  | nil => intro h _; simp [List.find?] at h
  | cons y ys ih =>
    intro hfind hfx
    by_cases hpy : pred y = true
    · have hxy : y = x := by simpa [List.find?_cons, hpy] using hfind
      subst hxy
      simp [updateFirst, hpy, List.find?_cons, hfx]
    · have hpy' : pred y = false := by simpa using hpy
      have hfind' : ys.find? pred = some x := by simpa [List.find?_cons, hpy'] using hfind
      simp [updateFirst, hpy', List.find?_cons, ih hfind' hfx]

/-- `savePayment` leaves the Enrollment collection untouched. -/
theorem savePayment_enrollments (db : DB) (key : String) (p' : Payment) :
    (savePayment db key p').enrollments = db.enrollments := rfl

/-- `writeEnrollment` leaves the Payment collection untouched. -/
theorem writeEnrollment_payments (db : DB) (eid : String) (f : Enrollment → Enrollment) :
    (writeEnrollment db eid f).payments = db.payments := rfl

/-- The mapper sends `settlement` to SETTLEMENT for every fraud status. -/
theorem mapMidtransStatus_settlement (f : Option String) :
    mapMidtransStatus "settlement" f = .settlement := rfl

/-- The mapper sends `cancel` to CANCEL for every fraud status. -/
theorem mapMidtransStatus_cancel (f : Option String) :
    mapMidtransStatus "cancel" f = .cancel := rfl

/-- A failing enrollment step aborts to the pre-call state `db`. -/
theorem webhookEnrollStep_error (newStatus : PaymentStatus) (eid : String) (o2 : Bool)
    (db sdb : DB) :
    (webhookEnrollStep newStatus eid o2 db sdb).2.isOk = false →
      (webhookEnrollStep newStatus eid o2 db sdb).1 = db := by
  unfold webhookEnrollStep
  repeat' split
  all_goals simp [Except.isOk, Except.toBool]

/-- A successful enrollment step only touches the Enrollment collection:
the Payment collection stays that of the session state `sdb`. -/
theorem webhookEnrollStep_ok_payments (newStatus : PaymentStatus) (eid : String) (o2 : Bool)
    (db sdb : DB) :
    (webhookEnrollStep newStatus eid o2 db sdb).2.isOk = true →
      (webhookEnrollStep newStatus eid o2 db sdb).1.payments = sdb.payments := by
  unfold webhookEnrollStep
  repeat' split
  all_goals simp [Except.isOk, Except.toBool, writeEnrollment]

/-- A successful enrollment step returns `ok ⟨true, newStatus⟩`. -/
theorem webhookEnrollStep_ok_result (newStatus : PaymentStatus) (eid : String) (o2 : Bool)
    (db sdb : DB) (res : WebhookResult) :
    (webhookEnrollStep newStatus eid o2 db sdb).2 = .ok res →
      res = ⟨true, newStatus⟩ := by
  unfold webhookEnrollStep
  repeat' split
  all_goals intro h
  all_goals first
    | (injection h with h; exact h.symm)
    | exact absurd h (by simp)

/-- Equation: `processWebhook` with no matching Payment. -/
theorem processWebhook_eq_notFound (payload : WebhookPayload) (now : Nat)
    (oracle : List Bool) (db : DB) (h : webhookFind db payload = none) :
    processWebhook payload now oracle db = (db, .error (.notFound "Payment not found")) := by
  simp [processWebhook, h]

/-- Equation: `processWebhook` when the stored status already equals the
mapped status (idempotent short-circuit). -/
theorem processWebhook_eq_shortcircuit (payload : WebhookPayload) (now : Nat)
    (oracle : List Bool) (db : DB) (payment : Payment)
    (h : webhookFind db payload = some payment)
    (hst : payment.status = mapMidtransStatus payload.transaction_status payload.fraud_status) :
    processWebhook payload now oracle db =
      (db, .ok ⟨true, mapMidtransStatus payload.transaction_status payload.fraud_status⟩) := by
  simp [processWebhook, h, hst]

/-- Equation: `processWebhook` when the Payment save fails (abort). -/
theorem processWebhook_eq_savefail (payload : WebhookPayload) (now : Nat)
    (oracle : List Bool) (db : DB) (payment : Payment)
    (h : webhookFind db payload = some payment)
    (hst : payment.status ≠ mapMidtransStatus payload.transaction_status payload.fraud_status)
    (ho : oHead oracle = false) :
    processWebhook payload now oracle db = (db, .error (.store "payment save failed")) := by
  simp [processWebhook, h, hst, ho]

/-- Equation: `processWebhook` in the mutation path with a successful
Payment save delegates to the enrollment step on the session state. -/
theorem processWebhook_eq_step (payload : WebhookPayload) (now : Nat)
    (oracle : List Bool) (db : DB) (payment : Payment)
    (h : webhookFind db payload = some payment)
    (hst : payment.status ≠ mapMidtransStatus payload.transaction_status payload.fraud_status)
    (ho : oHead oracle = true) :
    processWebhook payload now oracle db =
      webhookEnrollStep (mapMidtransStatus payload.transaction_status payload.fraud_status)
        payment.enrollmentId (oHead (oTail oracle)) db
        (savePayment db payment.transactionId (webhookUpdatedPayment payload now payment)) := by
  simp [processWebhook, h, hst, ho]

/-- A `processWebhook` call that reports an error leaves the store in the
pre-call state (mongoose session abort). -/
theorem processWebhook_error_rollback (payload : WebhookPayload) (now : Nat)
    (oracle : List Bool) (db : DB) :
    (processWebhook payload now oracle db).2.isOk = false →
      (processWebhook payload now oracle db).1 = db := by
  intro herr
  cases hfind : webhookFind db payload with
  | none => rw [processWebhook_eq_notFound payload now oracle db hfind]
  | some payment =>
    by_cases hst : payment.status = mapMidtransStatus payload.transaction_status payload.fraud_status
    · rw [processWebhook_eq_shortcircuit payload now oracle db payment hfind hst] at herr
      simp [Except.isOk, Except.toBool] at herr
    · by_cases ho : oHead oracle = true
      · rw [processWebhook_eq_step payload now oracle db payment hfind hst ho] at herr ⊢
        exact webhookEnrollStep_error _ _ _ _ _ herr
      · rw [processWebhook_eq_savefail payload now oracle db payment hfind hst
          (by simpa using ho)]

/-- Equation: `verifyPayment` without a local Payment only reports the
gateway result. -/
theorem verifyPayment_eq_notfound (tid : String) (result : MidtransStatusResult) (now : Nat)
    (oracle : List Bool) (db : DB) (h : verifyFind db tid = none) :
    verifyPayment tid (.ok result) now oracle db = (db, .ok (verifyResponse result)) := by
  simp [verifyPayment, h]

/-- Equation: `verifyPayment` with an unchanged status is a no-op. -/
theorem verifyPayment_eq_same (tid : String) (result : MidtransStatusResult) (now : Nat)
    (oracle : List Bool) (db : DB) (payment : Payment)
    (h : verifyFind db tid = some payment)
    (hst : payment.status = mapMidtransStatus result.transaction_status result.fraud_status) :
    verifyPayment tid (.ok result) now oracle db = (db, .ok (verifyResponse result)) := by
  simp [verifyPayment, h, hst]

/-- Equation: `verifyPayment` on a status change delegates to
`verifyMutate` (successful case). -/
theorem verifyPayment_eq_mutate_ok (tid : String) (result : MidtransStatusResult) (now : Nat)
    (oracle : List Bool) (db db1 : DB) (payment : Payment)
    (h : verifyFind db tid = some payment)
    (hst : payment.status ≠ mapMidtransStatus result.transaction_status result.fraud_status)
    (hm : verifyMutate (mapMidtransStatus result.transaction_status result.fraud_status)
      (verifyUpdatedPayment result now payment) payment.transactionId payment.enrollmentId
      oracle db = (db1, .ok ())) :
    verifyPayment tid (.ok result) now oracle db = (db1, .ok (verifyResponse result)) := by
  simp [verifyPayment, h, hst, hm]

/-- Equation: `verifyPayment` on a status change delegates to
`verifyMutate` (failing case: the error and the possibly partially
mutated store propagate). -/
theorem verifyPayment_eq_mutate_error (tid : String) (result : MidtransStatusResult) (now : Nat)
    (oracle : List Bool) (db db1 : DB) (payment : Payment) (e : Err)
    (h : verifyFind db tid = some payment)
    (hst : payment.status ≠ mapMidtransStatus result.transaction_status result.fraud_status)
    (hm : verifyMutate (mapMidtransStatus result.transaction_status result.fraud_status)
      (verifyUpdatedPayment result now payment) payment.transactionId payment.enrollmentId
      oracle db = (db1, .error e)) :
    verifyPayment tid (.ok result) now oracle db = (db1, .error e) := by
  simp [verifyPayment, h, hst, hm]

/-- A successful `verifyMutate` writes exactly the updated Payment into
the Payment collection (whatever happened to the enrollments). -/
theorem verifyMutate_ok_payments (status : PaymentStatus) (p' : Payment) (key eid : String)
    (oracle : List Bool) (db db1 : DB) :
    verifyMutate status p' key eid oracle db = (db1, .ok ()) →
      db1.payments = updateFirst (fun q => q.transactionId == key) (fun _ => p') db.payments := by
  unfold verifyMutate
  repeat' split
  all_goals intro h
  all_goals injection h with h1 h2
  all_goals first
    | exact Except.noConfusion h2
    | (subst h1; simp [savePayment, writeEnrollment])

/-- In the SETTLEMENT/CAPTURE branch of `verifyMutate`, success writes
the linked enrollment to active with progress 0. -/
theorem verifyMutate_settlement_enrollment (status : PaymentStatus) (p' : Payment)
    (key eid : String) (oracle : List Bool) (db db1 : DB) (e : Enrollment)
    (hset : status = .settlement ∨ status = .capture)
    (henr : findEnrollment db eid = some e) :
    verifyMutate status p' key eid oracle db = (db1, .ok ()) →
      findEnrollment db1 eid = some { e with status := .active, progress := 0 } := by
  intro h
  have henr' : db.enrollments.find? (fun x => x.id == eid) = some e := henr
  have hpe0 := List.find?_some henr'
  unfold verifyMutate at h
  rw [if_pos hset] at h
  by_cases ho1 : oHead oracle = true
  · by_cases ho2 : oHead (oTail oracle) = true
    · simp only [henr, ho1, ho2, if_true] at h
      injection h with h1 h2
      subst h1
      show (savePayment _ key p').enrollments.find? _ = _
      rw [savePayment_enrollments]
      exact find?_updateFirst_self _ _ _ _ henr' (by simpa using hpe0)
    · exfalso
      simp [henr, ho1, ho2] at h
  · exfalso
    simp [henr, ho1] at h

/-- After a successful `processWebhook`, the webhook lookup on the
resulting store finds a Payment carrying the mapped status, and the
result reports exactly that status. -/
theorem processWebhook_ok_state (payload : WebhookPayload) (now : Nat) (oracle : List Bool)
    (db : DB) (res : WebhookResult)
    (h : (processWebhook payload now oracle db).2 = .ok res) :
    res = ⟨true, mapMidtransStatus payload.transaction_status payload.fraud_status⟩ ∧
      ∃ q, webhookFind (processWebhook payload now oracle db).1 payload = some q ∧
        q.status = mapMidtransStatus payload.transaction_status payload.fraud_status := by
  cases hfind : webhookFind db payload with
  | none =>
    rw [processWebhook_eq_notFound payload now oracle db hfind] at h
    exact absurd h (by simp)
  | some payment =>
    by_cases hst : payment.status = mapMidtransStatus payload.transaction_status payload.fraud_status
    · rw [processWebhook_eq_shortcircuit payload now oracle db payment hfind hst] at h ⊢
      injection h with h'
      exact ⟨h'.symm, payment, hfind, hst⟩
    · by_cases ho : oHead oracle = true
      · rw [processWebhook_eq_step payload now oracle db payment hfind hst ho] at h ⊢
        refine ⟨webhookEnrollStep_ok_result _ _ _ _ _ res h, webhookUpdatedPayment payload now payment, ?_, ?_⟩
        · have hpay := webhookEnrollStep_ok_payments
            (mapMidtransStatus payload.transaction_status payload.fraud_status)
            payment.enrollmentId (oHead (oTail oracle)) db
            (savePayment db payment.transactionId (webhookUpdatedPayment payload now payment))
            (by rw [h]; rfl)
          have hfind' : db.payments.find?
              (fun p => p.orderId == payload.order_id || p.transactionId == payload.transaction_id)
              = some payment := hfind
          have hp' : (fun p : Payment =>
              p.orderId == payload.order_id || p.transactionId == payload.transaction_id)
              (webhookUpdatedPayment payload now payment) = true := by
            have := List.find?_some hfind'
            simpa [webhookUpdatedPayment] using this
          show (webhookEnrollStep _ _ _ _ _).1.payments.find? _ = _
          rw [hpay]
          exact find?_updateFirst_const _ _ _ payment db.payments hfind' (by simp) hp'
        · simp [webhookUpdatedPayment]
      · rw [processWebhook_eq_savefail payload now oracle db payment hfind hst (by simpa using ho)] at h
        exact absurd h (by simp)

/-- After a successful `verifyPayment` against gateway result `result`,
the response is `verifyResponse result` and the lookup on the resulting
store either still finds nothing or finds a Payment already carrying the
mapped status. -/
theorem verifyPayment_ok_state (tid : String) (result : MidtransStatusResult) (now : Nat)
    (oracle : List Bool) (db : DB) (res : VerifyPaymentResponse)
    (h : (verifyPayment tid (.ok result) now oracle db).2 = .ok res) :
    res = verifyResponse result ∧
      (verifyFind (verifyPayment tid (.ok result) now oracle db).1 tid = none ∨
       ∃ q, verifyFind (verifyPayment tid (.ok result) now oracle db).1 tid = some q ∧
         q.status = mapMidtransStatus result.transaction_status result.fraud_status) := by
  cases hfind : verifyFind db tid with
  | none =>
    rw [verifyPayment_eq_notfound tid result now oracle db hfind] at h ⊢
    injection h with h'
    exact ⟨h'.symm, Or.inl hfind⟩
  | some payment =>
    by_cases hst : payment.status = mapMidtransStatus result.transaction_status result.fraud_status
    · rw [verifyPayment_eq_same tid result now oracle db payment hfind hst] at h ⊢
      injection h with h'
      exact ⟨h'.symm, Or.inr ⟨payment, hfind, hst⟩⟩
    · rcases hm : verifyMutate (mapMidtransStatus result.transaction_status result.fraud_status)
          (verifyUpdatedPayment result now payment) payment.transactionId payment.enrollmentId
          oracle db with ⟨db1, r⟩
      cases r with
      | error e =>
        rw [verifyPayment_eq_mutate_error tid result now oracle db db1 payment e hfind hst hm] at h
        exact absurd h (by simp)
      | ok u =>
        cases u
        rw [verifyPayment_eq_mutate_ok tid result now oracle db db1 payment hfind hst hm] at h ⊢
        injection h with h'
        have hpay := verifyMutate_ok_payments _ _ _ _ _ _ _ hm
        have hfind' : db.payments.find?
            (fun p => p.transactionId == tid || p.orderId == tid) = some payment := hfind
        have hp' : (fun p : Payment => p.transactionId == tid || p.orderId == tid)
            (verifyUpdatedPayment result now payment) = true := by
          have := List.find?_some hfind'
          simpa [verifyUpdatedPayment] using this
        refine ⟨h'.symm, Or.inr ⟨verifyUpdatedPayment result now payment, ?_, ?_⟩⟩
        · show db1.payments.find? _ = _
          rw [hpay]
          exact find?_updateFirst_const _ _ _ payment db.payments hfind' (by simp) hp'
        · simp [verifyUpdatedPayment]

/-- When the lookup finds nothing or a Payment already at the mapped
status, `verifyPayment` performs no mutation. -/
theorem verifyPayment_noop (tid : String) (result : MidtransStatusResult) (now : Nat)
    (oracle : List Bool) (db : DB)
    (h : verifyFind db tid = none ∨
      ∃ q, verifyFind db tid = some q ∧
        q.status = mapMidtransStatus result.transaction_status result.fraud_status) :
    verifyPayment tid (.ok result) now oracle db = (db, .ok (verifyResponse result)) := by
  rcases h with hn | ⟨q, hq, hqs⟩
  · exact verifyPayment_eq_notfound tid result now oracle db hn
  · exact verifyPayment_eq_same tid result now oracle db q hq hqs

/-- A failing `cancelTransaction` performs no local mutation. -/
theorem cancelTransaction_error (tid : String) (gw : Except Err Unit) (oracle : List Bool)
    (db db' : DB) (e : Err) :
    cancelTransaction tid gw oracle db = (db', .error e) → db' = db := by
  unfold cancelTransaction
  repeat' split
  all_goals intro h
  all_goals injection h with h1 h2
  all_goals first
    | exact Except.noConfusion h2
    | exact h1.symm

/-- A failing `expireTransaction` performs no local mutation. -/
theorem expireTransaction_error (tid : String) (gw : Except Err Unit) (oracle : List Bool)
    (db db' : DB) (e : Err) :
    expireTransaction tid gw oracle db = (db', .error e) → db' = db := by
  unfold expireTransaction
  repeat' split
  all_goals intro h
  all_goals injection h with h1 h2
  all_goals first
    | exact Except.noConfusion h2
    | exact h1.symm

/-- A failing `refundTransaction` performs no local mutation. -/
theorem refundTransaction_error (tid : String) (amount : Option Int) (reason : Option String)
    (gw : Except Err Unit) (oracle : List Bool) (db db' : DB) (e : Err) :
    refundTransaction tid amount reason gw oracle db = (db', .error e) → db' = db := by
  unfold refundTransaction
  repeat' split
  all_goals intro h
  all_goals injection h with h1 h2
  all_goals first
    | exact Except.noConfusion h2
    | exact h1.symm

/-! ### Concrete sample data used by witnesses and counterexamples -/

/-- A one-Payment sample document with the given status. -/
def samplePayment (st : PaymentStatus) : Payment :=
  { transactionId := "T1", orderId := "O1", enrollmentId := "E1", userId := "U1",
    amount := 150000, status := st, paymentMethod := "unknown", snapToken := "tok",
    redirectUrl := "url", paidAt := none, createdAt := 0 }

/-- A sample Enrollment document with the given status and progress. -/
def sampleEnrollment (st : EnrollStatus) (progress : Nat) : Enrollment :=
  { id := "E1", userId := "U1", status := st, progress := progress }

/-- A one-Payment, one-Enrollment sample store. -/
def sampleDB (pst : PaymentStatus) (est : EnrollStatus) (progress : Nat) : DB :=
  { payments := [samplePayment pst], enrollments := [sampleEnrollment est progress] }

/-- A sample gateway status result with the given transaction status. -/
def sampleGw (st : String) : MidtransStatusResult :=
  { transaction_id := "T1", transaction_status := st, fraud_status := none,
    payment_type := some "qris", settlement_time := some 99, gross_amount := 150000 }

/-- A sample webhook payload with the given transaction status. -/
def samplePayload (st : String) : WebhookPayload :=
  { order_id := "O1", transaction_id := "T1", transaction_status := st,
    fraud_status := none, payment_type := some "qris" }

/-- Equation: the enrollment step on SETTLEMENT/CAPTURE with an existing
enrollment and a successful save activates it. -/
theorem webhookEnrollStep_eq_activate (ns : PaymentStatus) (eid : String) (o2 : Bool)
    (db sdb : DB) (e : Enrollment)
    (hsc : ns = .settlement ∨ ns = .capture)
    (henr : findEnrollment sdb eid = some e)
    (ho2 : o2 = true) :
    webhookEnrollStep ns eid o2 db sdb =
      (writeEnrollment sdb eid (fun x => { x with status := .active, progress := 0 }),
       .ok ⟨true, ns⟩) := by
  rcases hsc with h | h <;> subst h <;> simp [webhookEnrollStep, henr, ho2]

/-- Equation: the enrollment step on CANCEL/EXPIRE leaves an enrollment
that is not pending_payment untouched. -/
theorem webhookEnrollStep_eq_skipCancel (ns : PaymentStatus) (eid : String) (o2 : Bool)
    (db sdb : DB) (e : Enrollment)
    (hcc : ns = .cancel ∨ ns = .expire)
    (henr : findEnrollment sdb eid = some e)
    (hne : e.status ≠ .pendingPayment) :
    webhookEnrollStep ns eid o2 db sdb = (sdb, .ok ⟨true, ns⟩) := by
  rcases hcc with h | h <;> subst h <;> simp [webhookEnrollStep, henr, hne]

/-! ### Claims -/

/-- C8: the status mapper is a pure function reproducing the exact
mapping table: settlement → SETTLEMENT, capture+accept → CAPTURE,
pending → PENDING, deny → DENY, cancel → CANCEL, expire → EXPIRE,
refund → REFUND, partial_refund → PARTIAL_REFUND, and every unknown
gateway status → FAILED. -/
theorem C8_mapMidtransStatus_table :
    (∀ f, mapMidtransStatus "settlement" f = .settlement) ∧
    mapMidtransStatus "capture" (some "accept") = .capture ∧
    (∀ f, mapMidtransStatus "pending" f = .pending) ∧
    (∀ f, mapMidtransStatus "deny" f = .deny) ∧
    (∀ f, mapMidtransStatus "cancel" f = .cancel) ∧
    (∀ f, mapMidtransStatus "expire" f = .expire) ∧
    (∀ f, mapMidtransStatus "refund" f = .refund) ∧
    (∀ f, mapMidtransStatus "partial_refund" f = .partialRefund) ∧
    (∀ s f, s ∉ (["capture", "settlement", "pending", "deny", "cancel", "expire",
        "refund", "partial_refund"] : List String) → mapMidtransStatus s f = .failed) := by
  refine ⟨fun f => rfl, rfl, fun f => rfl, fun f => rfl, fun f => rfl, fun f => rfl,
    fun f => rfl, fun f => rfl, ?_⟩
  intro s f hs
  simp only [List.mem_cons, List.not_mem_nil, or_false] at hs
  push_neg at hs
  obtain ⟨h1, h2, h3, h4, h5, h6, h7, h8⟩ := hs
  simp [mapMidtransStatus, h1, h2, h3, h4, h5, h6, h7, h8]

/-- C8 witness: the unknown-status clause at the concrete input
`"unknown_code"`. -/
theorem C8_mapMidtransStatus_table_witness :
    "unknown_code" ∉ (["capture", "settlement", "pending", "deny", "cancel", "expire",
        "refund", "partial_refund"] : List String) ∧
    mapMidtransStatus "unknown_code" none = .failed := by
  refine ⟨by decide, ?_⟩
  exact C8_mapMidtransStatus_table.2.2.2.2.2.2.2.2 "unknown_code" none (by decide)

/-- C2: processWebhook is idempotent — after a successful call, a second
call with the identical payload leaves the whole store exactly as after
the first call (no second side-effecting mutation) and returns the same
successful result, via the stored-status-equals-mapped-status
short-circuit. -/
theorem C2_processWebhook_idempotent :
    (∀ payload now1 now2 o1 o2 db res,
        (processWebhook payload now1 o1 db).2 = .ok res →
        processWebhook payload now2 o2 (processWebhook payload now1 o1 db).1
          = ((processWebhook payload now1 o1 db).1, .ok res)) ∧
    (∀ payload now oracle db payment,
        webhookFind db payload = some payment →
        payment.status = mapMidtransStatus payload.transaction_status payload.fraud_status →
        processWebhook payload now oracle db
          = (db, .ok ⟨true, mapMidtransStatus payload.transaction_status payload.fraud_status⟩)) := by
  constructor
  · intro payload now1 now2 o1 o2 db res h1
    obtain ⟨hres, q, hq, hqs⟩ := processWebhook_ok_state payload now1 o1 db res h1
    subst hres
    exact processWebhook_eq_shortcircuit payload now2 o2 _ q hq hqs
  · intro payload now oracle db payment hfind hst
    exact processWebhook_eq_shortcircuit payload now oracle db payment hfind hst

/-- C2 witness: a concrete settlement webhook processed twice, and the
short-circuit at a Payment already carrying the mapped status. -/
theorem C2_processWebhook_idempotent_witness :
    (processWebhook (samplePayload "settlement") 200 []
        (processWebhook (samplePayload "settlement") 100 [] (sampleDB .pending .pendingPayment 0)).1
      = ((processWebhook (samplePayload "settlement") 100 [] (sampleDB .pending .pendingPayment 0)).1,
         .ok ⟨true, .settlement⟩)) ∧
    processWebhook (samplePayload "settlement") 100 [] (sampleDB .settlement .active 0)
      = (sampleDB .settlement .active 0, .ok ⟨true, .settlement⟩) :=
  ⟨C2_processWebhook_idempotent.1 (samplePayload "settlement") 100 200 [] []
      (sampleDB .pending .pendingPayment 0) ⟨true, .settlement⟩ (by decide),
   C2_processWebhook_idempotent.2 (samplePayload "settlement") 100 []
      (sampleDB .settlement .active 0) (samplePayment .settlement) (by decide) (by decide)⟩

/-- C5: verifyPayment on gateway status "settlement" activates the
owning pending_payment Enrollment (status active, progress 0) on the
first effective call, and once the stored Payment status equals the
mapped status every subsequent call performs no mutation at all and
returns the same result. -/
theorem C5_verifyPayment_settlement_exactly_once (tid : String)
    (result : MidtransStatusResult) (now1 now2 : Nat) (o1 o2 : List Bool)
    (db : DB) (res : VerifyPaymentResponse)
    (hset : result.transaction_status = "settlement")
    (h1 : (verifyPayment tid (.ok result) now1 o1 db).2 = .ok res) :
    (∀ p e, verifyFind db tid = some p → p.status ≠ .settlement →
       findEnrollment db p.enrollmentId = some e → e.status = .pendingPayment →
       findEnrollment (verifyPayment tid (.ok result) now1 o1 db).1 p.enrollmentId
         = some { e with status := .active, progress := 0 }) ∧
    verifyPayment tid (.ok result) now2 o2 (verifyPayment tid (.ok result) now1 o1 db).1
      = ((verifyPayment tid (.ok result) now1 o1 db).1, .ok res) := by
  have hmap : mapMidtransStatus result.transaction_status result.fraud_status = .settlement := by
    rw [hset]
    exact mapMidtransStatus_settlement result.fraud_status
  constructor
  · intro p e hp hpst henr _
    have hst : p.status ≠ mapMidtransStatus result.transaction_status result.fraud_status := by
      rw [hmap]; exact hpst
    rcases hm : verifyMutate (mapMidtransStatus result.transaction_status result.fraud_status)
        (verifyUpdatedPayment result now1 p) p.transactionId p.enrollmentId o1 db with ⟨db1, r⟩
    cases r with
    | error err =>
      rw [verifyPayment_eq_mutate_error tid result now1 o1 db db1 p err hp hst hm] at h1
      exact absurd h1 (by simp)
    | ok u =>
      cases u
      rw [verifyPayment_eq_mutate_ok tid result now1 o1 db db1 p hp hst hm]
      exact verifyMutate_settlement_enrollment _ _ _ _ _ _ _ _ (Or.inl hmap) henr hm
  · obtain ⟨hres, hcase⟩ := verifyPayment_ok_state tid result now1 o1 db res h1
    subst hres
    exact verifyPayment_noop tid result now2 o2 _ hcase

/-- C5 witness: a concrete settlement verification applied twice. -/
theorem C5_verifyPayment_settlement_exactly_once_witness :
    findEnrollment (verifyPayment "T1" (.ok (sampleGw "settlement")) 10 []
        (sampleDB .pending .pendingPayment 0)).1 "E1"
      = some (sampleEnrollment .active 0) ∧
    verifyPayment "T1" (.ok (sampleGw "settlement")) 20 []
        (verifyPayment "T1" (.ok (sampleGw "settlement")) 10 []
          (sampleDB .pending .pendingPayment 0)).1
      = ((verifyPayment "T1" (.ok (sampleGw "settlement")) 10 []
          (sampleDB .pending .pendingPayment 0)).1,
         .ok (verifyResponse (sampleGw "settlement"))) := by
  have h := C5_verifyPayment_settlement_exactly_once "T1" (sampleGw "settlement") 10 20 [] []
    (sampleDB .pending .pendingPayment 0) (verifyResponse (sampleGw "settlement"))
    (by decide) (by decide)
  exact ⟨h.1 (samplePayment .pending) (sampleEnrollment .pendingPayment 0)
      (by decide) (by decide) (by decide) (by decide), h.2⟩

/-- Equation: the enrollment step on SETTLEMENT/CAPTURE with an existing
enrollment and a failing save aborts to the pre-call state. -/
theorem webhookEnrollStep_eq_activateFail (ns : PaymentStatus) (eid : String) (o2 : Bool)
    (db sdb : DB) (e : Enrollment)
    (hsc : ns = .settlement ∨ ns = .capture)
    (henr : findEnrollment sdb eid = some e)
    (ho2 : o2 = false) :
    webhookEnrollStep ns eid o2 db sdb = (db, .error (.store "enrollment save failed")) := by
  rcases hsc with h | h <;> subst h <;> simp [webhookEnrollStep, henr, ho2]

/-- C1 counterexample: through `verifyPayment`, a CANCEL status update
moves an Enrollment that is already `active` to `cancelled` — the
pending_payment guard exists only in `processWebhook`, not in
`verifyPayment`. -/
theorem C1_counterexample :
    findEnrollment (sampleDB .pending .active 50) "E1" = some (sampleEnrollment .active 50) ∧
    (verifyPayment "T1" (.ok (sampleGw "cancel")) 10 [] (sampleDB .pending .active 50)).2.isOk
      = true ∧
    findEnrollment (verifyPayment "T1" (.ok (sampleGw "cancel")) 10 []
        (sampleDB .pending .active 50)).1 "E1" = some (sampleEnrollment .cancelled 50) := by
  decide

/-- C1 (amended): in `processWebhook`, a CANCEL/EXPIRE update sets the
linked Enrollment to cancelled only if it is pending_payment: an
enrollment that is already active or completed is left untouched. -/
theorem C1_amended_webhook_cancel_guard (payload : WebhookPayload) (now : Nat)
    (oracle : List Bool) (db : DB) (payment : Payment) (e : Enrollment)
    (hcc : mapMidtransStatus payload.transaction_status payload.fraud_status = .cancel ∨
      mapMidtransStatus payload.transaction_status payload.fraud_status = .expire)
    (hfind : webhookFind db payload = some payment)
    (henr : findEnrollment db payment.enrollmentId = some e)
    (hae : e.status = .active ∨ e.status = .completed) :
    findEnrollment (processWebhook payload now oracle db).1 payment.enrollmentId = some e := by
  by_cases hst : payment.status = mapMidtransStatus payload.transaction_status payload.fraud_status
  · rw [processWebhook_eq_shortcircuit payload now oracle db payment hfind hst]
    exact henr
  · by_cases ho : oHead oracle = true
    · rw [processWebhook_eq_step payload now oracle db payment hfind hst ho]
      have henr_sdb : findEnrollment (savePayment db payment.transactionId
          (webhookUpdatedPayment payload now payment)) payment.enrollmentId = some e := henr
      have hne : e.status ≠ .pendingPayment := by rcases hae with h | h <;> simp [h]
      rw [webhookEnrollStep_eq_skipCancel _ _ _ _ _ e hcc henr_sdb hne]
      exact henr_sdb
    · rw [processWebhook_eq_savefail payload now oracle db payment hfind hst (by simpa using ho)]
      exact henr

/-- C1 amended witness: a concrete cancel webhook against an active
enrollment leaves it active. -/
theorem C1_amended_webhook_cancel_guard_witness :
    findEnrollment (processWebhook (samplePayload "cancel") 5 []
        (sampleDB .pending .active 50)).1 "E1" = some (sampleEnrollment .active 50) :=
  C1_amended_webhook_cancel_guard (samplePayload "cancel") 5 []
    (sampleDB .pending .active 50) (samplePayment .pending) (sampleEnrollment .active 50)
    (by decide) (by decide) (by decide) (by decide)

/-- C3: in `processWebhook`, the Payment and Enrollment mutations form
one atomic unit: any failing call leaves the pre-call store, and a
successful settlement/capture mutation commits the Payment update
(status and paidAt) together with the Enrollment activation. -/
theorem C3_processWebhook_atomic (payload : WebhookPayload) (now : Nat)
    (oracle : List Bool) (db : DB) :
    ((processWebhook payload now oracle db).2.isOk = false →
       (processWebhook payload now oracle db).1 = db) ∧
    (∀ res payment e,
       (processWebhook payload now oracle db).2 = .ok res →
       webhookFind db payload = some payment →
       payment.status ≠ mapMidtransStatus payload.transaction_status payload.fraud_status →
       (mapMidtransStatus payload.transaction_status payload.fraud_status = .settlement ∨
        mapMidtransStatus payload.transaction_status payload.fraud_status = .capture) →
       findEnrollment db payment.enrollmentId = some e →
       (∃ q, webhookFind (processWebhook payload now oracle db).1 payload = some q ∧
          q.status = mapMidtransStatus payload.transaction_status payload.fraud_status ∧
          q.paidAt = some now) ∧
       findEnrollment (processWebhook payload now oracle db).1 payment.enrollmentId
         = some { e with status := .active, progress := 0 }) := by
  constructor
  · exact processWebhook_error_rollback payload now oracle db
  · intro res payment e hok hfind hst hsc henr
    have ho : oHead oracle = true := by
      by_contra hno
      rw [processWebhook_eq_savefail payload now oracle db payment hfind hst
        (by simpa using hno)] at hok
      exact absurd hok (by simp)
    rw [processWebhook_eq_step payload now oracle db payment hfind hst ho] at hok ⊢
    have henr_sdb : findEnrollment (savePayment db payment.transactionId
        (webhookUpdatedPayment payload now payment)) payment.enrollmentId = some e := henr
    have ho2 : oHead (oTail oracle) = true := by
      by_contra hno2
      rw [webhookEnrollStep_eq_activateFail _ _ _ _ _ e hsc henr_sdb (by simpa using hno2)] at hok
      exact absurd hok (by simp)
    rw [webhookEnrollStep_eq_activate _ _ _ _ _ e hsc henr_sdb ho2] at hok ⊢
    have hfind' : db.payments.find?
        (fun p => p.orderId == payload.order_id || p.transactionId == payload.transaction_id)
        = some payment := hfind
    have hp' : (fun p : Payment =>
        p.orderId == payload.order_id || p.transactionId == payload.transaction_id)
        (webhookUpdatedPayment payload now payment) = true := by
      have := List.find?_some hfind'
      simpa [webhookUpdatedPayment] using this
    have henr' : db.enrollments.find? (fun x => x.id == payment.enrollmentId) = some e := henr
    constructor
    · refine ⟨webhookUpdatedPayment payload now payment, ?_, by simp [webhookUpdatedPayment], ?_⟩
      · show (updateFirst (fun q => q.transactionId == payment.transactionId)
            (fun _ => webhookUpdatedPayment payload now payment) db.payments).find? _ = _
        exact find?_updateFirst_const _ _ _ payment db.payments hfind' (by simp) hp'
      · show (if _ ∨ _ then some now else payment.paidAt) = some now
        rw [if_pos hsc]
    · show (updateFirst (fun x => x.id == payment.enrollmentId) _ db.enrollments).find? _ = _
      exact find?_updateFirst_self _ _ _ _ henr' (by simpa using List.find?_some henr')

/-- C3 witness: the rollback clause at a failing oracle and the joint
commit clause at a concrete settlement webhook. -/
theorem C3_processWebhook_atomic_witness :
    (processWebhook (samplePayload "settlement") 7 [true, false]
        (sampleDB .pending .pendingPayment 0)).1 = sampleDB .pending .pendingPayment 0 ∧
    findEnrollment (processWebhook (samplePayload "settlement") 7 []
        (sampleDB .pending .pendingPayment 0)).1 "E1" = some (sampleEnrollment .active 0) := by
  constructor
  · exact (C3_processWebhook_atomic (samplePayload "settlement") 7 [true, false]
      (sampleDB .pending .pendingPayment 0)).1 (by decide)
  · exact ((C3_processWebhook_atomic (samplePayload "settlement") 7 []
      (sampleDB .pending .pendingPayment 0)).2 ⟨true, .settlement⟩ (samplePayment .pending)
      (sampleEnrollment .pendingPayment 0) (by decide) (by decide) (by decide) (by decide)
      (by decide)).2

/-- C4 counterexample: a failing `verifyPayment` (enrollment update
succeeded, payment save failed) leaves the Enrollment mutated to active
while the Payment still carries its old pending status — a partial
Payment/Enrollment state observable after a failed coordinator call. -/
theorem C4_counterexample :
    (verifyPayment "T1" (.ok (sampleGw "settlement")) 10 [true, false]
        (sampleDB .pending .pendingPayment 0)).2
      = .error (.store "payment save failed") ∧
    (verifyPayment "T1" (.ok (sampleGw "settlement")) 10 [true, false]
        (sampleDB .pending .pendingPayment 0)).1
      = { payments := [samplePayment .pending],
          enrollments := [sampleEnrollment .active 0] } := by
  decide

/-- C4 (amended): failing calls of `processWebhook`,
`cancelTransaction`, `expireTransaction` and `refundTransaction` leave
the local store in its prior state; `verifyPayment`, whose writes run
outside any transaction, is excluded. -/
theorem C4_amended_rollback :
    (∀ payload now oracle db db' e,
        processWebhook payload now oracle db = (db', .error e) → db' = db) ∧
    (∀ tid gw oracle db db' e,
        cancelTransaction tid gw oracle db = (db', .error e) → db' = db) ∧
    (∀ tid gw oracle db db' e,
        expireTransaction tid gw oracle db = (db', .error e) → db' = db) ∧
    (∀ tid amount reason gw oracle db db' e,
        refundTransaction tid amount reason gw oracle db = (db', .error e) → db' = db) := by
  refine ⟨?_, cancelTransaction_error, expireTransaction_error, refundTransaction_error⟩
  intro payload now oracle db db' e h
  have h2 := processWebhook_error_rollback payload now oracle db (by rw [h]; rfl)
  rw [h] at h2
  exact h2

/-- C4 amended witness: the four rollback clauses at concrete failing
inputs. -/
theorem C4_amended_rollback_witness :
    (sampleDB .pending .pendingPayment 0 = sampleDB .pending .pendingPayment 0) ∧
    (sampleDB .pending .pendingPayment 0 = sampleDB .pending .pendingPayment 0) ∧
    (sampleDB .pending .pendingPayment 0 = sampleDB .pending .pendingPayment 0) ∧
    (sampleDB .pending .pendingPayment 0 = sampleDB .pending .pendingPayment 0) := by
  refine ⟨?_, ?_, ?_, ?_⟩
  · exact C4_amended_rollback.1 (samplePayload "settlement") 7 [false]
      (sampleDB .pending .pendingPayment 0) (sampleDB .pending .pendingPayment 0)
      (.store "payment save failed") (by decide)
  · exact C4_amended_rollback.2.1 "T1" (.ok ()) [false] (sampleDB .pending .pendingPayment 0)
      (sampleDB .pending .pendingPayment 0) (.store "update failed") (by decide)
  · exact C4_amended_rollback.2.2.1 "T1" (.ok ()) [false] (sampleDB .pending .pendingPayment 0)
      (sampleDB .pending .pendingPayment 0) (.store "update failed") (by decide)
  · exact C4_amended_rollback.2.2.2 "T1" (some 500) none (.ok ()) [false]
      (sampleDB .pending .pendingPayment 0) (sampleDB .pending .pendingPayment 0)
      (.store "update failed") (by decide)

/-- C9: in `processWebhook`, a SETTLEMENT/CAPTURE mutation sets the
linked Enrollment to active with progress 0 for EVERY current enrollment
status — completed and cancelled enrollments included. -/
theorem C9_webhook_activates_unconditionally (payload : WebhookPayload) (now : Nat)
    (db : DB) (payment : Payment) (e : Enrollment)
    (hsc : mapMidtransStatus payload.transaction_status payload.fraud_status = .settlement ∨
      mapMidtransStatus payload.transaction_status payload.fraud_status = .capture)
    (hfind : webhookFind db payload = some payment)
    (hst : payment.status ≠ mapMidtransStatus payload.transaction_status payload.fraud_status)
    (henr : findEnrollment db payment.enrollmentId = some e) :
    findEnrollment (processWebhook payload now [] db).1 payment.enrollmentId
      = some { e with status := .active, progress := 0 } := by
  rw [processWebhook_eq_step payload now [] db payment hfind hst rfl]
  have henr_sdb : findEnrollment (savePayment db payment.transactionId
      (webhookUpdatedPayment payload now payment)) payment.enrollmentId = some e := henr
  rw [webhookEnrollStep_eq_activate _ _ (oHead (oTail [])) _ _ e hsc henr_sdb rfl]
  have henr' : db.enrollments.find? (fun x => x.id == payment.enrollmentId) = some e := henr
  show (updateFirst (fun x => x.id == payment.enrollmentId) _ db.enrollments).find? _ = _
  exact find?_updateFirst_self _ _ _ _ henr' (by simpa using List.find?_some henr')

/-- C9 witness: a settlement webhook re-activates a COMPLETED enrollment
and resets its progress from 100 to 0. -/
theorem C9_webhook_activates_unconditionally_witness :
    findEnrollment (processWebhook (samplePayload "settlement") 3 []
        (sampleDB .pending .completed 100)).1 "E1" = some (sampleEnrollment .active 0) :=
  C9_webhook_activates_unconditionally (samplePayload "settlement") 3
    (sampleDB .pending .completed 100) (samplePayment .pending) (sampleEnrollment .completed 100)
    (by decide) (by decide) (by decide) (by decide)

/-- C10: cancel/expire/refund look the local Payment up by transactionId
only; when no Payment carries that transactionId (even if one carries it
as orderId) the gateway call still happens, the call succeeds, and the
whole local store is unchanged. -/
theorem C10_tid_only_frame (tid : String) (db : DB)
    (h : ∀ p ∈ db.payments, p.transactionId ≠ tid) :
    ∀ oracle amount reason,
      cancelTransaction tid (.ok ()) oracle db = (db, .ok ()) ∧
      expireTransaction tid (.ok ()) oracle db = (db, .ok ()) ∧
      refundTransaction tid amount reason (.ok ()) oracle db = (db, .ok ()) := by
  intro oracle amount reason
  have hnone : db.payments.find? (fun p => p.transactionId == tid) = none := by
    rw [List.find?_eq_none]
    intro p hp
    simpa using h p hp
  exact ⟨by simp [cancelTransaction, hnone], by simp [expireTransaction, hnone],
    by simp [refundTransaction, hnone]⟩

/-- C10 witness: `"O1"` is a stored orderId but no transactionId; all
three operations succeed and change nothing. -/
theorem C10_tid_only_frame_witness :
    cancelTransaction "O1" (.ok ()) [] (sampleDB .pending .pendingPayment 0)
      = (sampleDB .pending .pendingPayment 0, .ok ()) ∧
    expireTransaction "O1" (.ok ()) [] (sampleDB .pending .pendingPayment 0)
      = (sampleDB .pending .pendingPayment 0, .ok ()) ∧
    refundTransaction "O1" (some 5000) (some "req") (.ok ()) []
        (sampleDB .pending .pendingPayment 0)
      = (sampleDB .pending .pendingPayment 0, .ok ()) :=
  C10_tid_only_frame "O1" (sampleDB .pending .pendingPayment 0) (by decide) [] (some 5000)
    (some "req")

/-- A sample valid-shape transaction request with the given amount. -/
def sampleRequest (amount : Int) : TransactionRequest :=
  ⟨"U1", amount, [⟨"I1", "Course", amount, 1⟩],
    ⟨"Ana", "Putri", "ana@example.com", "08123456789"⟩, none, some ⟨some "E1"⟩⟩

/-- C6: createTransaction rejects with a ValidationError every request
whose amount is below 1000 or above 999999999, or whose metadata lacks a
(non-empty) enrollmentId, and leaves the store untouched (no Payment
created). -/
theorem C6_createTransaction_validation (req : TransactionRequest) (freshId : String)
    (now : Nat) (gw : Except Err SnapResult) (db : DB)
    (h : req.amount < 1000 ∨ req.amount > 999999999 ∨
      req.metadata.bind (fun m => m.enrollmentId) = none ∨
      req.metadata.bind (fun m => m.enrollmentId) = some "") :
    ∃ msg, createTransaction req freshId now gw db = (db, .error (.validation msg)) := by
  by_cases hv : (validateTransactionRequest req).valid = true
  · rcases h with h1 | h2 | h3 | h4
    · have hva : (validateAmount req.amount).valid = false := by
        simp [validateAmount, h1]
      exact ⟨"Invalid amount", by simp [createTransaction, hv, hva]⟩
    · have hnl : ¬req.amount < 1000 := by omega
      have hva : (validateAmount req.amount).valid = false := by
        simp [validateAmount, hnl, h2]
      exact ⟨"Invalid amount", by simp [createTransaction, hv, hva]⟩
    · by_cases hva : (validateAmount req.amount).valid = true
      · exact ⟨"Enrollment ID is required in metadata",
          by simp [createTransaction, hv, hva, h3]⟩
      · have hva' : (validateAmount req.amount).valid = false := by simpa using hva
        exact ⟨"Invalid amount", by simp [createTransaction, hv, hva']⟩
    · by_cases hva : (validateAmount req.amount).valid = true
      · exact ⟨"Enrollment ID is required in metadata",
          by simp [createTransaction, hv, hva, h4]⟩
      · have hva' : (validateAmount req.amount).valid = false := by simpa using hva
        exact ⟨"Invalid amount", by simp [createTransaction, hv, hva']⟩
  · have hv' : (validateTransactionRequest req).valid = false := by simpa using hv
    exact ⟨"Validation failed", by simp [createTransaction, hv']⟩

/-- C6 witness: amount 500 (below the 1000 minimum) is rejected and no
Payment is persisted. -/
theorem C6_createTransaction_validation_witness :
    (500 : Int) < 1000 ∧
    ∃ msg, createTransaction (sampleRequest 500) "TX1" 42 (.ok ⟨"tok", "url"⟩) ⟨[], []⟩
      = (⟨[], []⟩, .error (.validation msg)) :=
  ⟨by decide, C6_createTransaction_validation (sampleRequest 500) "TX1" 42 (.ok ⟨"tok", "url"⟩)
    ⟨[], []⟩ (Or.inl (by decide))⟩

/-- C7: every successful createTransaction appends exactly one new
Payment, with status PENDING, whose transactionId (the fresh uuid) and
orderId (userId-timestamp) differ from those of every Payment already in
the store (the unique indexes make the save fail otherwise), leaves the
enrollments untouched, and returns expiresAt = creation time + 1 hour
(3600000 ms). -/
theorem C7_createTransaction_success (req : TransactionRequest) (freshId : String)
    (now : Nat) (gw : Except Err SnapResult) (db : DB) (res : CreatePaymentResponse)
    (h : (createTransaction req freshId now gw db).2 = .ok res) :
    ∃ newP : Payment,
      (createTransaction req freshId now gw db).1.payments = db.payments ++ [newP] ∧
      newP.status = .pending ∧
      newP.transactionId = freshId ∧
      newP.orderId = req.userId ++ "-" ++ toString now ∧
      (∀ p ∈ db.payments, p.transactionId ≠ newP.transactionId ∧ p.orderId ≠ newP.orderId) ∧
      res.expiresAt = now + 3600000 ∧
      (createTransaction req freshId now gw db).1.enrollments = db.enrollments := by
  by_cases hv : (validateTransactionRequest req).valid = true
  · by_cases hva : (validateAmount req.amount).valid = true
    · cases hmeta : req.metadata.bind (fun m => m.enrollmentId) with
      | none => simp [createTransaction, hv, hva, hmeta] at h
      | some eid =>
        by_cases heid : eid = ""
        · simp [createTransaction, hv, hva, hmeta, heid] at h
        · cases gw with
          | error e => simp [createTransaction, hv, hva, hmeta, heid] at h
          | ok snap =>
            by_cases hany : (db.payments.any fun p =>
                p.transactionId == freshId || p.orderId == req.userId ++ "-" ++ toString now)
                = true
            · simp [createTransaction, hv, hva, hmeta, heid, hany] at h
            · have hany' : (db.payments.any fun p =>
                  p.transactionId == freshId || p.orderId == req.userId ++ "-" ++ toString now)
                  = false := by simpa using hany
              have hres : res = ⟨true, freshId, req.userId ++ "-" ++ toString now, req.amount,
                  snap.token, snap.redirect_url, now + 3600000⟩ := by
                have := h
                simp [createTransaction, hv, hva, hmeta, heid, hany'] at this
                exact this.symm
              have huniq : ∀ p ∈ db.payments,
                  p.transactionId ≠ freshId ∧ p.orderId ≠ req.userId ++ "-" ++ toString now := by
                rw [List.any_eq_false] at hany'
                intro p hp
                have := hany' p hp
                simpa [not_or] using this
              refine ⟨⟨freshId, req.userId ++ "-" ++ toString now, eid, req.userId,
                  req.amount, .pending, "unknown", snap.token, snap.redirect_url, none, now⟩,
                ?_, rfl, rfl, rfl, huniq, by rw [hres], ?_⟩
              · simp [createTransaction, hv, hva, hmeta, heid, hany']
              · simp [createTransaction, hv, hva, hmeta, heid, hany']
    · have hva' : (validateAmount req.amount).valid = false := by simpa using hva
      simp [createTransaction, hv, hva'] at h
  · have hv' : (validateTransactionRequest req).valid = false := by simpa using hv
    simp [createTransaction, hv'] at h

/-- C7 witness: a concrete successful creation against an empty store. -/
theorem C7_createTransaction_success_witness :
    ∃ newP : Payment,
      (createTransaction (sampleRequest 150000) "TX1" 42 (.ok ⟨"tok", "url"⟩)
          ⟨[], []⟩).1.payments = ([] : List Payment) ++ [newP] ∧
      newP.status = .pending ∧
      newP.transactionId = "TX1" ∧
      newP.orderId = (sampleRequest 150000).userId ++ "-" ++ toString 42 ∧
      (∀ p ∈ ([] : List Payment), p.transactionId ≠ newP.transactionId ∧
        p.orderId ≠ newP.orderId) ∧
      (⟨true, "TX1", "U1-42", 150000, "tok", "url", 3600042⟩ :
          CreatePaymentResponse).expiresAt = 42 + 3600000 ∧
      (createTransaction (sampleRequest 150000) "TX1" 42 (.ok ⟨"tok", "url"⟩)
          ⟨[], []⟩).1.enrollments = ([] : List Enrollment) :=
  C7_createTransaction_success (sampleRequest 150000) "TX1" 42 (.ok ⟨"tok", "url"⟩) ⟨[], []⟩
    ⟨true, "TX1", "U1-42", 150000, "tok", "url", 3600042⟩ (by decide)

end Worldpedia
